import Mathlib

/-!
Verification of the selenium-automation resilient orchestration layer.

Shallow embedding of the data model and operations of the repository:
the Result wrapper (src/models/result.py), the session state machine
(src/automation/terakoya/session.py), the circuit breaker
(src/resilience/circuit_breaker.py), duplicate detection, the lesson
retrieval pipeline and its retry wrapper
(src/automation/terakoya/client.py), and the validation framework
(src/validation/validators.py, src/validation/lesson_validator.py).

Wall-clock timestamps are modelled as natural numbers (seconds);
Python exceptions are modelled by the Exc structure, whose msg field
plays the role of str(e).
-/

namespace SelAuto

/-- Model of a Python exception value: msg is what str(e) returns. -/
structure Exc where
  msg : String
deriving DecidableEq

/-- ResultStatus enum from src/models/result.py. -/
inductive ResultStatus
  | SUCCESS
  | FAILURE
deriving DecidableEq

/-- The Result dataclass from src/models/result.py: status, optional value,
optional error (causing exception), optional message. -/
structure Result (α : Type) where
  status : ResultStatus
  value : Option α
  error : Option Exc
  message : Option String
deriving DecidableEq

/-- Result.success classmethod: SUCCESS status, the value, no error. -/
def Result.success {α : Type} (value : α) (message : Option String) : Result α :=
  ⟨ResultStatus.SUCCESS, some value, none, message⟩

/-- Result.failure classmethod: FAILURE status, no value, optional error. -/
def Result.failure {α : Type} (message : String) (error : Option Exc) : Result α :=
  ⟨ResultStatus.FAILURE, none, error, some message⟩

/-- Result.is_success property. -/
def Result.is_success {α : Type} (r : Result α) : Bool :=
  match r.status with
  | ResultStatus.SUCCESS => true
  | ResultStatus.FAILURE => false

/-- Result.is_failure property. -/
def Result.is_failure {α : Type} (r : Result α) : Bool :=
  match r.status with
  | ResultStatus.SUCCESS => false
  | ResultStatus.FAILURE => true

/-- Result.map from src/models/result.py. The mapped function receives the
stored value (an Option, since the Python field is Optional) and either
returns a value or raises an exception, modelled by Except. A failure is
propagated by rebuilding a failure with the same message and error; an
exception e raised by func becomes a failure with message str(e) and
error e; a normal return becomes a success keeping the original message. -/
def Result.map {α β : Type} (r : Result α) (func : Option α → Except Exc β) : Result β :=
  match r.status with
  | ResultStatus.FAILURE => ⟨ResultStatus.FAILURE, none, r.error, r.message⟩
  | ResultStatus.SUCCESS =>
    match func r.value with
    | Except.ok w => ⟨ResultStatus.SUCCESS, some w, none, r.message⟩
    | Except.error e => ⟨ResultStatus.FAILURE, none, some e, some e.msg⟩

/-- Results actually produced by the two classmethod constructors.
The dataclass itself would admit arbitrary field combinations; every
Result in the code base is built through success or failure. -/
inductive Result.Constructed {α : Type} : Result α → Prop
  | success (v : α) (m : Option String) : Result.Constructed (Result.success v m)
  | failure (m : String) (e : Option Exc) : Result.Constructed (Result.failure m e)

/-! Session state machine from src/automation/terakoya/session.py. -/

/-- SessionState enum. -/
inductive SessionState
  | NOT_LOGGED_IN
  | LOGGED_IN
  | EXPIRED
  | UNKNOWN
deriving DecidableEq

/-- The mutable fields of SessionManager. Timestamps are seconds. -/
structure SessionRecord where
  state : SessionState
  login_time : Option Nat
  last_activity : Option Nat
deriving DecidableEq

/-- SESSION_TIMEOUT constant: 30 minutes, in seconds. -/
def SESSION_TIMEOUT : Nat := 30 * 60

/-- SessionManager.is_logged_in property. -/
def SessionRecord.is_logged_in (s : SessionRecord) : Bool :=
  match s.state with
  | SessionState.LOGGED_IN => true
  | _ => false

/-- SessionManager.mark_logged_in at time now. -/
def SessionRecord.mark_logged_in (_s : SessionRecord) (now : Nat) : SessionRecord :=
  ⟨SessionState.LOGGED_IN, some now, some now⟩

/-- SessionManager.update_activity at time now. -/
def SessionRecord.update_activity (s : SessionRecord) (now : Nat) : SessionRecord :=
  { s with last_activity := some now }

/-- SessionManager.is_session_expired evaluated at time now: expired when
not logged in, when no activity was recorded, or when the elapsed time
since the last activity strictly exceeds SESSION_TIMEOUT. -/
def SessionRecord.is_session_expired (s : SessionRecord) (now : Nat) : Bool :=
  match s.last_activity with
  | none => true
  | some a =>
    if s.is_logged_in then decide (SESSION_TIMEOUT < now - a) else true

/-- SessionManager.is_session_valid evaluated at time now. The browser
lookup of a login form (only reached when the state heuristics are
inconclusive) is abstracted by login_form_found, the is_success of the
find_element call. Returns the Result and the mutated record. -/
def SessionRecord.is_session_valid (s : SessionRecord) (now : Nat)
    (login_form_found : Bool) : Result Bool × SessionRecord :=
  if s.is_session_expired now then
    (Result.success false (some "Session expired (timeout)"),
     { s with state := SessionState.EXPIRED })
  else if s.is_logged_in && !(s.is_session_expired now) then
    (Result.success true (some "Session valid (based on state)"),
     s.update_activity now)
  else if login_form_found then
    (Result.success false (some "Session invalid (login form found)"),
     { s with state := SessionState.NOT_LOGGED_IN })
  else
    (Result.success false (some "Session state unknown"),
     { s with state := SessionState.UNKNOWN })

/-- SessionManager.require_login evaluated at time now. Returns the Result
and the mutated record. -/
def SessionRecord.require_login (s : SessionRecord) (now : Nat)
    (login_form_found : Bool) : Result Unit × SessionRecord :=
  if !s.is_logged_in then
    (Result.failure "Not logged in" none, s)
  else if s.is_session_expired now then
    (Result.failure "Session expired" none, { s with state := SessionState.EXPIRED })
  else
    let vr := s.is_session_valid now login_form_found
    if vr.1.is_success && vr.1.value == some true then
      (Result.success () (some "Login valid"), vr.2)
    else
      (Result.failure "Session invalid, login required" none, vr.2)

/-- A sequence of require_login calls at the given times, threading the
mutated record through. -/
def SessionRecord.require_login_chain (s : SessionRecord) (times : List Nat)
    (login_form_found : Bool) : SessionRecord :=
  times.foldl (fun st t => (st.require_login t login_form_found).2) s

/-- Predicate: each time in the list is within SESSION_TIMEOUT of the
previous activity timestamp (the accumulator a). -/
def chainWithinTimeout (a : Nat) : List Nat → Bool
  | [] => true
  | t :: ts => decide (t - a ≤ SESSION_TIMEOUT) && chainWithinTimeout t ts

/-- Predicate: every require_login call in the sequence succeeds. -/
def SessionRecord.chainAllSuccess (s : SessionRecord) (login_form_found : Bool) :
    List Nat → Bool
  | [] => true
  | t :: ts =>
    (s.require_login t login_form_found).1.is_success &&
      SessionRecord.chainAllSuccess (s.require_login t login_form_found).2
        login_form_found ts

/-! Circuit breaker from src/resilience/circuit_breaker.py. -/

/-- CircuitState enum. -/
inductive CircuitState
  | CLOSED
  | OPEN
  | HALF_OPEN
deriving DecidableEq

/-- Configuration and mutable state of CircuitBreaker. The timeout
(cooldown) and timestamps are in seconds. -/
structure CircuitBreaker where
  failure_threshold : Nat
  timeout : Nat
  failure_count : Nat
  last_failure_time : Option Nat
  state : CircuitState
deriving DecidableEq

/-- CircuitBreaker.__init__: CLOSED, zero failures, no failure time. -/
def CircuitBreaker.init (failure_threshold timeout : Nat) : CircuitBreaker :=
  ⟨failure_threshold, timeout, 0, none, CircuitState.CLOSED⟩

/-- CircuitBreaker._should_attempt_reset at time now: true when no failure
was recorded, or when strictly more than timeout has elapsed since the
last failure. -/
def CircuitBreaker.should_attempt_reset (cb : CircuitBreaker) (now : Nat) : Bool :=
  match cb.last_failure_time with
  | none => true
  | some t => decide (cb.timeout < now - t)

/-- CircuitBreaker._on_success: HALF_OPEN goes back to CLOSED; the failure
counter is zeroed in every state. -/
def CircuitBreaker.on_success (cb : CircuitBreaker) : CircuitBreaker :=
  let cb :=
    if cb.state = CircuitState.HALF_OPEN then
      { cb with state := CircuitState.CLOSED }
    else cb
  { cb with failure_count := 0 }

/-- CircuitBreaker._on_failure at time now: increment the counter, record
the failure time, and open the circuit once the threshold is reached. -/
def CircuitBreaker.on_failure (cb : CircuitBreaker) (now : Nat) : CircuitBreaker :=
  let cb := { cb with
    failure_count := cb.failure_count + 1,
    last_failure_time := some now }
  if cb.failure_threshold ≤ cb.failure_count then
    { cb with state := CircuitState.OPEN }
  else cb

/-- Behaviour of the wrapped function on one invocation: it either returns
normally or raises an exception of the counted (expected_exception)
category. -/
inductive CallOutcome
  | ok
  | raises
deriving DecidableEq

/-- Observable outcome of CircuitBreaker.call: either the call was rejected
with CircuitBreakerOpenError (the wrapped function was not invoked), or
the wrapped function was invoked with the given outcome. -/
inductive CallResult
  | rejected
  | invoked (o : CallOutcome)
deriving DecidableEq

/-- Body of CircuitBreaker.call after the OPEN check: invoke the wrapped
function and update the breaker. -/
def CircuitBreaker.execute (cb : CircuitBreaker) (now : Nat)
    (outcome : CallOutcome) : CallResult × CircuitBreaker :=
  match outcome with
  | CallOutcome.ok => (CallResult.invoked CallOutcome.ok, cb.on_success)
  | CallOutcome.raises => (CallResult.invoked CallOutcome.raises, cb.on_failure now)

/-- CircuitBreaker.call at time now, where outcome is what the wrapped
function would do if invoked. While OPEN, the call is rejected unless the
cooldown has elapsed, in which case the breaker moves to HALF_OPEN and
the call proceeds. -/
def CircuitBreaker.call (cb : CircuitBreaker) (now : Nat)
    (outcome : CallOutcome) : CallResult × CircuitBreaker :=
  if cb.state = CircuitState.OPEN then
    if cb.should_attempt_reset now then
      ({ cb with state := CircuitState.HALF_OPEN }).execute now outcome
    else
      (CallResult.rejected, cb)
  else
    cb.execute now outcome

/-- A sequence of calls through the breaker, threading the state. -/
def CircuitBreaker.callSeq (cb : CircuitBreaker) :
    List (Nat × CallOutcome) → List CallResult × CircuitBreaker
  | [] => ([], cb)
  | (t, o) :: rest =>
    let step := cb.call t o
    let next := step.2.callSeq rest
    (step.1 :: next.1, next.2)

/-- The last failure time after a run of failures at the given times,
starting from a previous value. -/
def lastTime (lft : Option Nat) : List Nat → Option Nat
  | [] => lft
  | t :: ts => lastTime (some t) ts

/-! Lesson and invoice data from src/models/lesson.py and the extraction
code in src/automation/terakoya/client.py. -/

/-- LessonData TypedDict: every field is present and typed. -/
structure LessonData where
  id : String
  date : String
  student_id : String
  student_name : String
  status : String
  duration : Int
  category : String
deriving DecidableEq

/-- An existing invoice row as scraped from the page: a dict whose keys may
be absent, read with dict.get (None when missing). -/
structure InvoiceEntry where
  date : Option String
  student_id : Option String
  student_name : Option String
deriving DecidableEq

/-- One invoice row matches the lesson when date and student_id agree, or
when date and student_name agree (the fallback rule). -/
def invoiceMatches (lesson : LessonData) (inv : InvoiceEntry) : Bool :=
  (inv.date == some lesson.date && inv.student_id == some lesson.student_id) ||
    (inv.date == some lesson.date && inv.student_name == some lesson.student_name)

/-- TerakoyaClient.is_duplicate: scan the existing invoices, returning true
on the first row matching by (date, student_id) or by
(date, student_name). -/
def is_duplicate (lesson : LessonData) (existing : List InvoiceEntry) : Bool :=
  existing.any (invoiceMatches lesson)

/-! Validation framework from src/validation/validators.py and
src/validation/lesson_validator.py. -/

/-- ValidationResult dataclass. -/
structure ValidationResult where
  is_valid : Bool
  errors : List String
  warnings : List String
deriving DecidableEq

/-- ValidationResult.add_error: append the message and flip validity off. -/
def ValidationResult.add_error (r : ValidationResult) (message : String) :
    ValidationResult :=
  { r with errors := r.errors ++ [message], is_valid := false }

/-- ValidationResult.add_warning: append the message; validity untouched. -/
def ValidationResult.add_warning (r : ValidationResult) (message : String) :
    ValidationResult :=
  { r with warnings := r.warnings ++ [message] }

/-- The incoming dict validated by LessonValidator: any field may be
missing or None. -/
structure LessonDict where
  id : Option String
  date : Option String
  student_id : Option String
  student_name : Option String
  status : Option String
  duration : Option Int
  category : Option String
deriving DecidableEq

/-- View of a fully populated LessonData as the dict handed to the
validator. -/
def LessonData.toDict (l : LessonData) : LessonDict :=
  ⟨some l.id, some l.date, some l.student_id, some l.student_name,
    some l.status, some l.duration, some l.category⟩

/-- Validator.validate_required_fields over the seven required lesson
fields, in declaration order: one error per missing field. -/
def validate_required_errors (d : LessonDict) : List String :=
  (if d.id = none then ["Missing required field: id"] else []) ++
  (if d.date = none then ["Missing required field: date"] else []) ++
  (if d.student_id = none then ["Missing required field: student_id"] else []) ++
  (if d.student_name = none then ["Missing required field: student_name"] else []) ++
  (if d.status = none then ["Missing required field: status"] else []) ++
  (if d.duration = none then ["Missing required field: duration"] else []) ++
  (if d.category = none then ["Missing required field: category"] else [])

/-- Validator.validate_string_length with both bounds supplied. -/
def validate_string_length (value : String) (field_name : String)
    (min_length max_length : Nat) : Option String :=
  if value.length < min_length then
    some (field_name ++ " must be at least " ++ toString min_length ++
      " characters, got " ++ toString value.length)
  else if max_length < value.length then
    some (field_name ++ " must be at most " ++ toString max_length ++
      " characters, got " ++ toString value.length)
  else none

/-- The regex of Validator.validate_date_format: four digits, dash, two
digits, dash, two digits, anchored at both ends. -/
def matchesDatePattern (s : String) : Bool :=
  match s.data with
  | [y1, y2, y3, y4, h1, m1, m2, h2, d1, d2] =>
    y1.isDigit && y2.isDigit && y3.isDigit && y4.isDigit &&
      h1 == '-' && m1.isDigit && m2.isDigit && h2 == '-' &&
      d1.isDigit && d2.isDigit
  | _ => false

/-- Validator.validate_date_format. -/
def validate_date_format (date_str : String) (field_name : String) :
    Option String :=
  if matchesDatePattern date_str then none
  else some ("Invalid " ++ field_name ++ " format: " ++ date_str ++
    " (expected YYYY-MM-DD)")

/-- Validator.validate_positive_number on an Int value. -/
def validate_positive_number (value : Int) (field_name : String) :
    Option String :=
  if value ≤ 0 then
    some (field_name ++ " must be positive, got " ++ toString value)
  else none

/-- LessonValidator.VALID_STATUSES. -/
def VALID_STATUSES : List String := ["completed", "pending", "cancelled"]

/-- LessonValidator.MIN_DURATION, in minutes. -/
def MIN_DURATION : Int := 15

/-- LessonValidator.MAX_DURATION, in minutes. -/
def MAX_DURATION : Int := 180

/-- The pattern "if error: result.add_error(error)" used after each field
check in LessonValidator.validate. -/
def applyCheck (r : ValidationResult) (e : Option String) : ValidationResult :=
  match e with
  | some m => r.add_error m
  | none => r

/-- The duration block of LessonValidator.validate: a non-positive or
non-numeric duration is an error; below MIN_DURATION is an error; above
MAX_DURATION is only a warning. -/
def durationCheck (r : ValidationResult) (dur : Int) : ValidationResult :=
  match validate_positive_number dur "duration" with
  | some e => r.add_error e
  | none =>
    if dur < MIN_DURATION then
      r.add_error ("Duration too short: " ++ toString dur ++
        " minutes (minimum: " ++ toString MIN_DURATION ++ ")")
    else if MAX_DURATION < dur then
      r.add_warning ("Duration unusually long: " ++ toString dur ++
        " minutes (maximum recommended: " ++ toString MAX_DURATION ++ ")")
    else r

/-- The status block of LessonValidator.validate. -/
def statusCheck (r : ValidationResult) (status : String) : ValidationResult :=
  if VALID_STATUSES.contains status then r
  else r.add_error ("Invalid status: " ++ status ++
    " (must be one of: completed, pending, cancelled)")

/-- LessonValidator.validate: required fields first with an early return
when any is missing, then per-field checks in source order. The catch-all
branch of the match is unreachable because a missing field already took
the early return. -/
def LessonValidator.validate (data : LessonDict) : ValidationResult :=
  let result : ValidationResult := ⟨true, [], []⟩
  let result := (validate_required_errors data).foldl ValidationResult.add_error result
  if result.is_valid = false then result
  else
    match data.id, data.date, data.student_id, data.student_name,
        data.status, data.duration, data.category with
    | some id, some date, some sid, some sname, some status, some dur, some cat =>
      let result := applyCheck result (validate_string_length id "id" 1 100)
      let result := applyCheck result (validate_date_format date "date")
      let result := applyCheck result (validate_string_length sid "student_id" 1 100)
      let result := applyCheck result (validate_string_length sname "student_name" 1 200)
      let result := statusCheck result status
      let result := durationCheck result dur
      let result := applyCheck result (validate_string_length cat "category" 1 100)
      result
    | _, _, _, _, _, _, _ => result

/-! Lesson retrieval pipeline from TerakoyaClient.get_lessons_for_month in
src/automation/terakoya/client.py. Browser interaction is abstracted: a
page button carries its (trimmed) label and the card text found around
it; extraction of a card text into a LessonData is a parameter standing
for the regex or AI extractor. -/

/-- A button found inside the bounded container, with its trimmed label and
the surrounding lesson-card text. -/
structure PageButton where
  label : String
  card_text : String
deriving DecidableEq

/-- The fixed per-run cap on edit controls (slice(0, 100) in the marking
script). -/
def MAX_EDIT_BUTTONS : Nat := 100

/-- The exact-match label selecting edit buttons. -/
def EDIT_LABEL : String := "編集"

/-- The marking script: keep only buttons whose exact label is the edit
label, limited to the first MAX_EDIT_BUTTONS. -/
def markEditButtons (buttons : List PageButton) : List PageButton :=
  (buttons.filter (fun b => b.label == EDIT_LABEL)).take MAX_EDIT_BUTTONS

/-- The month filter string built as "{year}-{month:02d}". -/
def targetMonthStr (year month : Nat) : String :=
  toString year ++ "-" ++ (if month < 10 then "0" else "") ++ toString month

/-- Python str.startswith, computed on the character lists. -/
def strStartsWith (s p : String) : Bool :=
  p.data.isPrefixOf s.data

/-- The key used by the duplicate-removal safety net. -/
def lessonKey (l : LessonData) : String × String := (l.date, l.student_name)

/-- The duplicate-removal loop: keep the first occurrence of each
(date, student_name) key, tracking the keys already seen. -/
def dedupeGo (seen : List (String × String)) : List LessonData → List LessonData
  | [] => []
  | l :: rest =>
    if lessonKey l ∈ seen then dedupeGo seen rest
    else l :: dedupeGo (lessonKey l :: seen) rest

/-- The stages of get_lessons_for_month up to the duplicate-removal
safety net: cap and select edit buttons, extract a lesson per card
(extract abstracts the regex or AI extractor), keep only lessons the
validator accepts, and filter to the requested month. -/
def lessonsBeforeDedupe (buttons : List PageButton)
    (extract : String → Option LessonData) (year month : Nat) :
    List LessonData :=
  (((markEditButtons buttons).map (fun b => b.card_text)).filterMap (fun c =>
    match extract c with
    | none => none
    | some l =>
      if (LessonValidator.validate l.toDict).is_valid then some l
      else none)).filter
    (fun l => strStartsWith l.date (targetMonthStr year month))

/-- The pure tail of get_lessons_for_month: the staged pipeline followed
by the removal of (date, student_name) duplicates, keeping first
occurrences. -/
def get_lessons_for_month (buttons : List PageButton)
    (extract : String → Option LessonData) (year month : Nat) :
    List LessonData :=
  dedupeGo [] (lessonsBeforeDedupe buttons extract year month)

/-! Retry wrapper from TerakoyaClient.add_invoice_item_with_retry in
src/automation/terakoya/client.py. -/

/-- What one add_invoice_item attempt does: return a Result, or raise an
exception (which the wrapper catches). -/
inductive AttemptOutcome
  | result (r : Result Unit)
  | raises (e : Exc)
deriving DecidableEq

/-- Whether an attempt counts as failed for the retry loop. -/
def attemptFails (a : AttemptOutcome) : Bool :=
  match a with
  | AttemptOutcome.result r => r.is_failure
  | AttemptOutcome.raises _ => true

/-- The last_error recorded after a failed attempt: the failure message of
the result, or str(e) of the caught exception. -/
def attemptErrorMessage (a : AttemptOutcome) : Option String :=
  match a with
  | AttemptOutcome.result r => r.message
  | AttemptOutcome.raises e => some e.msg

/-- The message of the final failure, "Failed after N attempts. Last
error: ...", with None printed as Python would. -/
def retryFailureMessage (max_retries : Nat) (last_error : Option String) :
    String :=
  "Failed after " ++ toString max_retries ++ " attempts. Last error: " ++
    (match last_error with
     | some m => m
     | none => "None")

/-- The loop body of add_invoice_item_with_retry over the remaining values
of range(max_retries). Returns the final Result, the number of attempts
actually executed, and the list of backoff pauses slept (seconds), each
min(2 ** attempt, 10) and only slept when another attempt remains. -/
def retryGo (attempts : Nat → AttemptOutcome) (max_retries : Nat)
    (last_error : Option String) :
    List Nat → Result Unit × Nat × List Nat
  | [] => (Result.failure (retryFailureMessage max_retries last_error) none, 0, [])
  | attempt :: rest =>
    let pause : List Nat :=
      if attempt < max_retries - 1 then [min (2 ^ attempt) 10] else []
    match attempts attempt with
    | AttemptOutcome.result r =>
      if r.is_success then (r, 1, [])
      else
        let next := retryGo attempts max_retries r.message rest
        (next.1, next.2.1 + 1, pause ++ next.2.2)
    | AttemptOutcome.raises e =>
      let next := retryGo attempts max_retries (some e.msg) rest
      (next.1, next.2.1 + 1, pause ++ next.2.2)

/-- TerakoyaClient.add_invoice_item_with_retry, abstracted over what each
add_invoice_item attempt does. -/
def add_invoice_item_with_retry (attempts : Nat → AttemptOutcome)
    (max_retries : Nat) : Result Unit × Nat × List Nat :=
  retryGo attempts max_retries none (List.range max_retries)

/-! Modal-close wait and the save tail of add_invoice_item, from
src/automation/terakoya/client.py. -/

/-- TerakoyaClient._wait_for_modal_closed: sleep 0.3 s, probe for the
modal, and when it is still present sleep out the remaining budget; in
every case return success. modal_found is the is_success of the probe;
the second component lists the sleeps performed, in milliseconds. -/
def wait_for_modal_closed (modal_found : Bool) (timeout : Nat) :
    Result Unit × List Nat :=
  let sleeps : List Nat := [300]
  let sleeps := if modal_found then sleeps ++ [(timeout - 2) * 1000] else sleeps
  (Result.success () (some "Modal closed or not found"), sleeps)

/-- The tail of TerakoyaClient.add_invoice_item after the form is filled:
in dry-run mode report the form as filled without saving; otherwise click
save (its outcome is save_click), and on click success wait for the modal
to close, logging but ignoring the wait outcome, then report the item as
saved. -/
def add_invoice_item_finish (dry_run : Bool) (save_click : Result Unit)
    (modal_found : Bool) : Result Unit :=
  if dry_run then
    Result.success () (some "Invoice item form filled (not submitted)")
  else if save_click.is_failure then
    Result.failure "Failed to click save button" save_click.error
  else
    let close_wait := wait_for_modal_closed modal_found 5
    let _ := close_wait.1
    Result.success () (some "Invoice item saved")

/-! Helper lemmas. -/

/-- A failed Result is not a successful one. -/
lemma is_success_eq_false_of_is_failure {α : Type} (r : Result α)
    (h : r.is_failure = true) : r.is_success = false := by
  cases hs : r.status <;>
    simp [Result.is_failure, Result.is_success, hs] at h ⊢

/-- A successful Result is not a failed one. -/
lemma is_failure_eq_false_of_is_success {α : Type} (r : Result α)
    (h : r.is_success = true) : r.is_failure = false := by
  cases hs : r.status <;>
    simp [Result.is_failure, Result.is_success, hs] at h ⊢

/-! Claim theorems. -/

/-- C2, counterexample: the concrete constructed value
Result.failure "boom" none is a failure whose error field is empty, so
succeeded (is_success) being true is not equivalent to the error field
being empty. -/
theorem result_error_iff_cex :
    Result.Constructed (Result.failure "boom" none : Result Nat) ∧
    ¬ (((Result.failure "boom" none : Result Nat).is_success = true) ↔
        ((Result.failure "boom" none : Result Nat).error = none)) :=
  ⟨Result.Constructed.failure "boom" none, by decide⟩

/-- C2, amended: for every Result built by the success or failure
constructors, success implies the error field is empty and failure
implies the value field is empty; a failure may or may not carry an
error, since the causing exception is an optional argument. -/
theorem result_success_no_error {α : Type} (r : Result α)
    (hc : Result.Constructed r) :
    (r.is_success = true → r.error = none) ∧
    (r.is_failure = true → r.value = none) := by
  cases hc with
  | success v m =>
    simp [Result.success, Result.is_success, Result.is_failure]
  | failure m e =>
    simp [Result.failure, Result.is_success, Result.is_failure]

/-- Witness for C2 at a concrete constructed success and failure. -/
theorem result_success_no_error_witness :
    (Result.success (0 : Nat) none).error = none ∧
    (Result.failure "x" none : Result Nat).value = none :=
  ⟨(result_success_no_error _ (Result.Constructed.success 0 none)).1 rfl,
   (result_success_no_error _ (Result.Constructed.failure "x" none)).2 rfl⟩

/-- C7: Result.map propagates a failure with the same message and error;
on a success it returns a failure carrying the raised exception as error
and its string form as message when the function raises, and a success
holding the new value (with the original message) when it returns. -/
theorem result_map_spec {α β : Type} (f : Option α → Except Exc β) :
    (∀ r : Result α, r.is_failure = true →
      (r.map f).status = ResultStatus.FAILURE ∧
      (r.map f).message = r.message ∧
      (r.map f).error = r.error) ∧
    (∀ (v : α) (m : Option String) (e : Exc), f (some v) = Except.error e →
      (Result.success v m).map f = Result.failure e.msg (some e)) ∧
    (∀ (v : α) (m : Option String) (w : β), f (some v) = Except.ok w →
      (Result.success v m).map f = Result.success w m) := by
  refine ⟨?_, ?_, ?_⟩
  · intro r hr
    have hst : r.status = ResultStatus.FAILURE := by
      cases hs : r.status <;> simp [Result.is_failure, hs] at hr ⊢
    simp [Result.map, hst]
  · intro v m e he
    simp [Result.map, Result.success, Result.failure, he]
  · intro v m w hw
    simp [Result.map, Result.success, hw]

/-- Witness for C7 at a concrete failure, a raising function and a
returning function. -/
theorem result_map_spec_witness :
    ((Result.failure "boom" (some ⟨"cause"⟩) : Result Nat).map
        (fun o => Except.ok (o.getD 0 + 1))).error = some ⟨"cause"⟩ ∧
    (Result.success (3 : Nat) (some "m")).map
        (fun _ => (Except.error ⟨"neg"⟩ : Except Exc Nat)) =
      Result.failure "neg" (some ⟨"neg"⟩) ∧
    (Result.success (3 : Nat) (some "m")).map
        (fun o => (Except.ok (o.getD 0 + 1) : Except Exc Nat)) =
      Result.success 4 (some "m") :=
  ⟨((result_map_spec (fun o => Except.ok (o.getD 0 + 1))).1
      (Result.failure "boom" (some ⟨"cause"⟩)) rfl).2.2,
   (result_map_spec (fun _ => (Except.error ⟨"neg"⟩ : Except Exc Nat))).2.1
     3 (some "m") ⟨"neg"⟩ rfl,
   (result_map_spec (fun o => (Except.ok (o.getD 0 + 1) : Except Exc Nat))).2.2
     3 (some "m") 4 rfl⟩

/-- C9: _wait_for_modal_closed returns success for every probe outcome and
every timeout, and therefore in normal mode the save tail of
add_invoice_item reports the item saved whenever the save click
succeeded, even when the modal is still present. -/
theorem modal_close_always_succeeds :
    (∀ (modal_found : Bool) (timeout : Nat),
      (wait_for_modal_closed modal_found timeout).1 =
        Result.success () (some "Modal closed or not found")) ∧
    (∀ (save_click : Result Unit) (modal_found : Bool),
      save_click.is_success = true →
      add_invoice_item_finish false save_click modal_found =
        Result.success () (some "Invoice item saved")) := by
  constructor
  · intro mf t
    rfl
  · intro sc mf hs
    have hf : sc.is_failure = false := is_failure_eq_false_of_is_success sc hs
    simp [add_invoice_item_finish, hf]

/-- Witness for C9: a successful save click with the modal still visible
is still reported as saved. -/
theorem modal_close_always_succeeds_witness :
    add_invoice_item_finish false (Result.success () none) true =
      Result.success () (some "Invoice item saved") :=
  modal_close_always_succeeds.2 (Result.success () none) true rfl

/-- C3: is_duplicate holds exactly when some existing invoice matches the
lesson by (date, student_id) or by (date, student_name); in particular a
(date, student_id) match suffices whatever the names are, a
(date, student_name) match suffices whatever the ids are, and the empty
list yields false. -/
theorem is_duplicate_spec (lesson : LessonData) (existing : List InvoiceEntry) :
    (is_duplicate lesson existing = true ↔
      ∃ inv ∈ existing,
        (inv.date = some lesson.date ∧ inv.student_id = some lesson.student_id) ∨
        (inv.date = some lesson.date ∧ inv.student_name = some lesson.student_name)) ∧
    (∀ inv ∈ existing, inv.date = some lesson.date →
      inv.student_id = some lesson.student_id →
      is_duplicate lesson existing = true) ∧
    (∀ inv ∈ existing, inv.date = some lesson.date →
      inv.student_name = some lesson.student_name →
      is_duplicate lesson existing = true) ∧
    is_duplicate lesson [] = false := by
  have hiff : is_duplicate lesson existing = true ↔
      ∃ inv ∈ existing,
        (inv.date = some lesson.date ∧ inv.student_id = some lesson.student_id) ∨
        (inv.date = some lesson.date ∧ inv.student_name = some lesson.student_name) := by
    simp [is_duplicate, List.any_eq_true, invoiceMatches]
  refine ⟨hiff, ?_, ?_, rfl⟩
  · intro inv hmem hd hsid
    exact hiff.mpr ⟨inv, hmem, Or.inl ⟨hd, hsid⟩⟩
  · intro inv hmem hd hsn
    exact hiff.mpr ⟨inv, hmem, Or.inr ⟨hd, hsn⟩⟩

/-- Witness for C3: a (date, student_id) match with a different name, and
a (date, student_name) match with a different id, are each duplicates. -/
theorem is_duplicate_spec_witness :
    is_duplicate ⟨"l1", "2025-10-15", "s1", "Alice", "completed", 60, "cat"⟩
      [⟨some "2025-10-15", some "s1", some "Bob"⟩] = true ∧
    is_duplicate ⟨"l1", "2025-10-15", "s1", "Alice", "completed", 60, "cat"⟩
      [⟨some "2025-10-15", some "other", some "Alice"⟩] = true ∧
    is_duplicate ⟨"l1", "2025-10-15", "s1", "Alice", "completed", 60, "cat"⟩ [] =
      false :=
  ⟨(is_duplicate_spec _ _).2.1 ⟨some "2025-10-15", some "s1", some "Bob"⟩
      (by decide) rfl rfl,
   (is_duplicate_spec _ _).2.2.1 ⟨some "2025-10-15", some "other", some "Alice"⟩
      (by decide) rfl rfl,
   (is_duplicate_spec ⟨"l1", "2025-10-15", "s1", "Alice", "completed", 60, "cat"⟩
      []).2.2.2⟩

/-- C4: require_login fails with message "Not logged in" whenever the
state is not LOGGED_IN; fails with message "Session expired" when logged
in but more than SESSION_TIMEOUT has elapsed since the last activity;
and succeeds in every other case. -/
theorem require_login_spec (s : SessionRecord) (now : Nat) (lff : Bool) :
    (s.state ≠ SessionState.LOGGED_IN →
      (s.require_login now lff).1 = Result.failure "Not logged in" none) ∧
    (∀ a : Nat, s.state = SessionState.LOGGED_IN → s.last_activity = some a →
      SESSION_TIMEOUT < now - a →
      (s.require_login now lff).1 = Result.failure "Session expired" none) ∧
    (∀ a : Nat, s.state = SessionState.LOGGED_IN → s.last_activity = some a →
      now - a ≤ SESSION_TIMEOUT →
      (s.require_login now lff).1 = Result.success () (some "Login valid")) := by
  refine ⟨?_, ?_, ?_⟩
  · intro hne
    have hl : s.is_logged_in = false := by
      cases hst : s.state <;>
        simp [SessionRecord.is_logged_in, hst] at hne ⊢
    simp [SessionRecord.require_login, hl]
  · intro a hst ha hgt
    have hl : s.is_logged_in = true := by
      simp [SessionRecord.is_logged_in, hst]
    have hexp : s.is_session_expired now = true := by
      simp [SessionRecord.is_session_expired, ha, hl, hgt]
    simp [SessionRecord.require_login, hl, hexp]
  · intro a hst ha hle
    have hl : s.is_logged_in = true := by
      simp [SessionRecord.is_logged_in, hst]
    have hexp : s.is_session_expired now = false := by
      simp [SessionRecord.is_session_expired, ha, hl]
      omega
    simp [SessionRecord.require_login, SessionRecord.is_session_valid,
      SessionRecord.update_activity, Result.is_success, Result.success,
      hl, hexp]

/-- Witness for C4: the three branches at concrete sessions and times. -/
theorem require_login_spec_witness :
    ((⟨SessionState.NOT_LOGGED_IN, none, none⟩ : SessionRecord).require_login
        100 false).1 = Result.failure "Not logged in" none ∧
    ((⟨SessionState.LOGGED_IN, some 0, some 0⟩ : SessionRecord).require_login
        5000 false).1 = Result.failure "Session expired" none ∧
    ((⟨SessionState.LOGGED_IN, some 0, some 0⟩ : SessionRecord).require_login
        100 false).1 = Result.success () (some "Login valid") :=
  ⟨(require_login_spec ⟨SessionState.NOT_LOGGED_IN, none, none⟩ 100 false).1
      (by decide),
   (require_login_spec ⟨SessionState.LOGGED_IN, some 0, some 0⟩ 5000 false).2.1
      0 rfl rfl (by decide),
   (require_login_spec ⟨SessionState.LOGGED_IN, some 0, some 0⟩ 100 false).2.2
      0 rfl rfl (by decide)⟩

/-- One require_login call on a live logged-in session succeeds and only
refreshes the activity timestamp. -/
lemma require_login_step (lt : Option Nat) (a t : Nat) (lff : Bool)
    (h : t - a ≤ SESSION_TIMEOUT) :
    SessionRecord.require_login ⟨SessionState.LOGGED_IN, lt, some a⟩ t lff =
      (Result.success () (some "Login valid"),
       ⟨SessionState.LOGGED_IN, lt, some t⟩) := by
  have hexp : SessionRecord.is_session_expired
      ⟨SessionState.LOGGED_IN, lt, some a⟩ t = false := by
    simp [SessionRecord.is_session_expired, SessionRecord.is_logged_in]
    omega
  simp [SessionRecord.require_login, SessionRecord.is_logged_in,
    SessionRecord.is_session_valid, SessionRecord.update_activity,
    Result.is_success, Result.success, hexp]

/-- C10: a successful require_login call refreshes last_activity to the
current time and leaves state and login_time unchanged; consequently a
chain of require_login calls, each within SESSION_TIMEOUT of the
previous activity, succeeds at every step and keeps the session
LOGGED_IN with its login_time intact. -/
theorem require_login_frame_and_chain :
    (∀ (s : SessionRecord) (now : Nat) (lff : Bool),
      (s.require_login now lff).1.is_success = true →
      ((s.require_login now lff).2.last_activity = some now ∧
       (s.require_login now lff).2.state = s.state ∧
       (s.require_login now lff).2.login_time = s.login_time)) ∧
    (∀ (lt : Option Nat) (a : Nat) (lff : Bool) (ts : List Nat),
      chainWithinTimeout a ts = true →
      (SessionRecord.chainAllSuccess ⟨SessionState.LOGGED_IN, lt, some a⟩
          lff ts = true ∧
       SessionRecord.require_login_chain ⟨SessionState.LOGGED_IN, lt, some a⟩
          ts lff = ⟨SessionState.LOGGED_IN, lt, lastTime (some a) ts⟩)) := by
  constructor
  · intro s now lff h
    by_cases h1 : s.is_logged_in = true
    · by_cases h2 : s.is_session_expired now = true
      · simp [SessionRecord.require_login, h1, h2, Result.failure,
          Result.is_success] at h
      · simp only [Bool.not_eq_true] at h2
        simp [SessionRecord.require_login, SessionRecord.is_session_valid,
          SessionRecord.update_activity, h1, h2, Result.is_success,
          Result.success]
    · simp only [Bool.not_eq_true] at h1
      simp [SessionRecord.require_login, h1, Result.failure,
        Result.is_success] at h
  · intro lt a lff ts
    induction ts generalizing a lt with
    | nil =>
      intro _
      exact ⟨rfl, rfl⟩
    | cons t rest ih =>
      intro hok
      have hok2 := hok
      simp only [chainWithinTimeout, Bool.and_eq_true, decide_eq_true_eq] at hok2
      have h1 : t - a ≤ SESSION_TIMEOUT := hok2.1
      have h2 : chainWithinTimeout t rest = true := hok2.2
      have hstep := require_login_step lt a t lff h1
      constructor
      · simp only [SessionRecord.chainAllSuccess, hstep, Bool.and_eq_true]
        exact ⟨rfl, (ih lt t h2).1⟩
      · simp only [SessionRecord.require_login_chain, List.foldl_cons, hstep]
        exact (ih lt t h2).2

/-- Witness for C10: a fresh login at time 0 followed by require_login
calls at 1000, 2000 and 3000 stays logged in with activity 3000. -/
theorem require_login_frame_and_chain_witness :
    ((⟨SessionState.LOGGED_IN, some 0, some 0⟩ : SessionRecord).require_login
        100 false).2.last_activity = some 100 ∧
    SessionRecord.chainAllSuccess ⟨SessionState.LOGGED_IN, some 0, some 0⟩
      false [1000, 2000, 3000] = true ∧
    SessionRecord.require_login_chain ⟨SessionState.LOGGED_IN, some 0, some 0⟩
      [1000, 2000, 3000] false =
      ⟨SessionState.LOGGED_IN, some 0, some 3000⟩ :=
  ⟨(require_login_frame_and_chain.1 ⟨SessionState.LOGGED_IN, some 0, some 0⟩
      100 false (by decide)).1,
   (require_login_frame_and_chain.2 (some 0) 0 false [1000, 2000, 3000]
      (by decide)).1,
   (require_login_frame_and_chain.2 (some 0) 0 false [1000, 2000, 3000]
      (by decide)).2⟩

/-- Splitting a call sequence through the breaker. -/
lemma callSeq_append (cb : CircuitBreaker) (l1 l2 : List (Nat × CallOutcome)) :
    cb.callSeq (l1 ++ l2) =
      ((cb.callSeq l1).1 ++ ((cb.callSeq l1).2.callSeq l2).1,
       ((cb.callSeq l1).2.callSeq l2).2) := by
  induction l1 generalizing cb with
  | nil => simp [CircuitBreaker.callSeq]
  | cons p rest ih =>
    obtain ⟨t, o⟩ := p
    simp [CircuitBreaker.callSeq, ih]

/-- A run of counted failures that stays strictly below the threshold is
fully invoked, counts every failure, records the last failure time, and
leaves the breaker CLOSED. -/
lemma callSeq_fails_closed (N T : Nat) :
    ∀ (ts : List Nat) (c : Nat) (lft : Option Nat), c + ts.length < N →
      CircuitBreaker.callSeq ⟨N, T, c, lft, CircuitState.CLOSED⟩
          (ts.map fun t => (t, CallOutcome.raises)) =
        (ts.map fun _ => CallResult.invoked CallOutcome.raises,
         ⟨N, T, c + ts.length, lastTime lft ts, CircuitState.CLOSED⟩) := by
  intro ts
  induction ts with
  | nil =>
    intro c lft _
    simp [CircuitBreaker.callSeq, lastTime]
  | cons t rest ih =>
    intro c lft h
    have hno : ¬ (N ≤ c + 1) := by
      simp only [List.length_cons] at h
      omega
    have hstep : CircuitBreaker.call ⟨N, T, c, lft, CircuitState.CLOSED⟩ t
        CallOutcome.raises =
        (CallResult.invoked CallOutcome.raises,
         ⟨N, T, c + 1, some t, CircuitState.CLOSED⟩) := by
      simp [CircuitBreaker.call, CircuitBreaker.execute,
        CircuitBreaker.on_failure, hno]
    simp only [List.map_cons, CircuitBreaker.callSeq, hstep]
    rw [ih (c + 1) (some t) (by simp only [List.length_cons] at h; omega)]
    simp [lastTime]
    omega

/-- C1: from a CLOSED breaker with threshold N and cooldown T, a run of
exactly N counted failures is fully invoked and leaves the breaker OPEN
with failure count N and the last failure time recorded; any run shorter
than N leaves it CLOSED; while OPEN, a call strictly less than T after
the last failure is rejected without invoking the wrapped function and
changes nothing; a call more than T after the last failure is invoked
exactly once (HALF_OPEN trial): on success the breaker is CLOSED with
failure count zero, on failure it is OPEN again with the cooldown clock
reset to the trial failure time. -/
theorem circuit_breaker_spec (N T : Nat) (ts : List Nat) (tN : Nat)
    (hlen : ts.length + 1 = N) :
    (CircuitBreaker.callSeq (CircuitBreaker.init N T)
        ((ts ++ [tN]).map fun t => (t, CallOutcome.raises)) =
      ((ts ++ [tN]).map fun _ => CallResult.invoked CallOutcome.raises,
       ⟨N, T, N, some tN, CircuitState.OPEN⟩)) ∧
    (∀ us : List Nat, us.length < N →
      (CircuitBreaker.callSeq (CircuitBreaker.init N T)
          (us.map fun t => (t, CallOutcome.raises))).2.state =
        CircuitState.CLOSED) ∧
    (∀ (tb : Nat) (o : CallOutcome), tb - tN < T →
      CircuitBreaker.call ⟨N, T, N, some tN, CircuitState.OPEN⟩ tb o =
        (CallResult.rejected, ⟨N, T, N, some tN, CircuitState.OPEN⟩)) ∧
    (∀ th : Nat, T < th - tN →
      CircuitBreaker.call ⟨N, T, N, some tN, CircuitState.OPEN⟩ th
          CallOutcome.ok =
        (CallResult.invoked CallOutcome.ok,
         ⟨N, T, 0, some tN, CircuitState.CLOSED⟩)) ∧
    (∀ th : Nat, T < th - tN →
      CircuitBreaker.call ⟨N, T, N, some tN, CircuitState.OPEN⟩ th
          CallOutcome.raises =
        (CallResult.invoked CallOutcome.raises,
         ⟨N, T, N + 1, some th, CircuitState.OPEN⟩)) := by
  subst hlen
  refine ⟨?_, ?_, ?_, ?_, ?_⟩
  · rw [List.map_append, callSeq_append, CircuitBreaker.init,
      callSeq_fails_closed (ts.length + 1) T ts 0 none (by omega)]
    have hstep : CircuitBreaker.call
        ⟨ts.length + 1, T, ts.length, lastTime none ts,
          CircuitState.CLOSED⟩ tN CallOutcome.raises =
        (CallResult.invoked CallOutcome.raises,
         ⟨ts.length + 1, T, ts.length + 1, some tN, CircuitState.OPEN⟩) := by
      simp [CircuitBreaker.call, CircuitBreaker.execute,
        CircuitBreaker.on_failure]
    simp [CircuitBreaker.callSeq, hstep]
  · intro us hus
    rw [CircuitBreaker.init,
      callSeq_fails_closed (ts.length + 1) T us 0 none (by omega)]
  · intro tb o h
    have hreset : CircuitBreaker.should_attempt_reset
        ⟨ts.length + 1, T, ts.length + 1, some tN, CircuitState.OPEN⟩ tb =
        false := by
      simp [CircuitBreaker.should_attempt_reset]
      omega
    simp [CircuitBreaker.call, hreset]
  · intro th h
    have hreset : CircuitBreaker.should_attempt_reset
        ⟨ts.length + 1, T, ts.length + 1, some tN, CircuitState.OPEN⟩ th =
        true := by
      simp [CircuitBreaker.should_attempt_reset]
      omega
    simp [CircuitBreaker.call, hreset, CircuitBreaker.execute,
      CircuitBreaker.on_success]
  · intro th h
    have hreset : CircuitBreaker.should_attempt_reset
        ⟨ts.length + 1, T, ts.length + 1, some tN, CircuitState.OPEN⟩ th =
        true := by
      simp [CircuitBreaker.should_attempt_reset]
      omega
    simp [CircuitBreaker.call, hreset, CircuitBreaker.execute,
      CircuitBreaker.on_failure]

/-- Witness for C1: threshold 2, cooldown 10, failures at times 1 and 2,
a rejected call at time 5, and trial calls at time 20. -/
theorem circuit_breaker_spec_witness :
    CircuitBreaker.callSeq (CircuitBreaker.init 2 10)
        [(1, CallOutcome.raises), (2, CallOutcome.raises)] =
      ([CallResult.invoked CallOutcome.raises,
        CallResult.invoked CallOutcome.raises],
       ⟨2, 10, 2, some 2, CircuitState.OPEN⟩) ∧
    (CircuitBreaker.callSeq (CircuitBreaker.init 2 10)
        [(5, CallOutcome.raises)]).2.state = CircuitState.CLOSED ∧
    CircuitBreaker.call ⟨2, 10, 2, some 2, CircuitState.OPEN⟩ 5
        CallOutcome.ok =
      (CallResult.rejected, ⟨2, 10, 2, some 2, CircuitState.OPEN⟩) ∧
    CircuitBreaker.call ⟨2, 10, 2, some 2, CircuitState.OPEN⟩ 20
        CallOutcome.ok =
      (CallResult.invoked CallOutcome.ok,
       ⟨2, 10, 0, some 2, CircuitState.CLOSED⟩) ∧
    CircuitBreaker.call ⟨2, 10, 2, some 2, CircuitState.OPEN⟩ 20
        CallOutcome.raises =
      (CallResult.invoked CallOutcome.raises,
       ⟨2, 10, 3, some 20, CircuitState.OPEN⟩) := by
  have h := circuit_breaker_spec 2 10 [1] 2 (by decide)
  exact ⟨h.1, h.2.1 [5] (by decide), h.2.2.1 5 CallOutcome.ok (by decide),
    h.2.2.2.1 20 (by decide), h.2.2.2.2 20 (by decide)⟩

/-- C5: with max_retries = 3, when the first two attempts fail and the
third succeeds, the wrapper returns the third attempt's success after
exactly 3 attempts with the two backoff pauses min(2^0, 10) and
min(2^1, 10), each at most the 10-second ceiling; and when all three
attempts fail it returns a failure whose message embeds the last error
after exactly 3 attempts. -/
theorem retry_spec (attempts : Nat → AttemptOutcome) :
    (∀ r : Result Unit,
      attemptFails (attempts 0) = true →
      attemptFails (attempts 1) = true →
      attempts 2 = AttemptOutcome.result r →
      r.is_success = true →
      (add_invoice_item_with_retry attempts 3 =
        (r, 3, [min (2 ^ 0) 10, min (2 ^ 1) 10]) ∧
       ∀ p ∈ (add_invoice_item_with_retry attempts 3).2.2, p ≤ 10)) ∧
    (attemptFails (attempts 0) = true →
     attemptFails (attempts 1) = true →
     attemptFails (attempts 2) = true →
      add_invoice_item_with_retry attempts 3 =
        (Result.failure
          (retryFailureMessage 3 (attemptErrorMessage (attempts 2))) none,
         3, [min (2 ^ 0) 10, min (2 ^ 1) 10])) := by
  have hrange : List.range 3 = [0, 1, 2] := rfl
  constructor
  · intro r h0 h1 h2 hr
    have hmain : add_invoice_item_with_retry attempts 3 =
        (r, 3, [min (2 ^ 0) 10, min (2 ^ 1) 10]) := by
      unfold add_invoice_item_with_retry
      rw [hrange]
      cases ha0 : attempts 0 with
      | result r0 =>
        rw [ha0] at h0
        simp only [attemptFails] at h0
        have h0s : r0.is_success = false := is_success_eq_false_of_is_failure r0 h0
        cases ha1 : attempts 1 with
        | result r1 =>
          rw [ha1] at h1
          simp only [attemptFails] at h1
          have h1s : r1.is_success = false := is_success_eq_false_of_is_failure r1 h1
          simp [retryGo, ha0, ha1, h2, h0s, h1s, hr]
        | raises e1 =>
          simp [retryGo, ha0, ha1, h2, h0s, hr]
      | raises e0 =>
        cases ha1 : attempts 1 with
        | result r1 =>
          rw [ha1] at h1
          simp only [attemptFails] at h1
          have h1s : r1.is_success = false := is_success_eq_false_of_is_failure r1 h1
          simp [retryGo, ha0, ha1, h2, h1s, hr]
        | raises e1 =>
          simp [retryGo, ha0, ha1, h2, hr]
    refine ⟨hmain, ?_⟩
    rw [hmain]
    intro p hp
    simp at hp
    rcases hp with rfl | rfl <;> simp
  · intro h0 h1 h2
    unfold add_invoice_item_with_retry
    rw [hrange]
    cases ha0 : attempts 0 with
    | result r0 =>
      rw [ha0] at h0
      simp only [attemptFails] at h0
      have h0s : r0.is_success = false := is_success_eq_false_of_is_failure r0 h0
      cases ha1 : attempts 1 with
      | result r1 =>
        rw [ha1] at h1
        simp only [attemptFails] at h1
        have h1s : r1.is_success = false := is_success_eq_false_of_is_failure r1 h1
        cases ha2 : attempts 2 with
        | result r2 =>
          rw [ha2] at h2
          simp only [attemptFails] at h2
          have h2s : r2.is_success = false := is_success_eq_false_of_is_failure r2 h2
          simp [retryGo, ha0, ha1, ha2, h0s, h1s, h2s, attemptErrorMessage]
        | raises e2 =>
          simp [retryGo, ha0, ha1, ha2, h0s, h1s, attemptErrorMessage]
      | raises e1 =>
        cases ha2 : attempts 2 with
        | result r2 =>
          rw [ha2] at h2
          simp only [attemptFails] at h2
          have h2s : r2.is_success = false := is_success_eq_false_of_is_failure r2 h2
          simp [retryGo, ha0, ha1, ha2, h0s, h2s, attemptErrorMessage]
        | raises e2 =>
          simp [retryGo, ha0, ha1, ha2, h0s, attemptErrorMessage]
    | raises e0 =>
      cases ha1 : attempts 1 with
      | result r1 =>
        rw [ha1] at h1
        simp only [attemptFails] at h1
        have h1s : r1.is_success = false := is_success_eq_false_of_is_failure r1 h1
        cases ha2 : attempts 2 with
        | result r2 =>
          rw [ha2] at h2
          simp only [attemptFails] at h2
          have h2s : r2.is_success = false := is_success_eq_false_of_is_failure r2 h2
          simp [retryGo, ha0, ha1, ha2, h1s, h2s, attemptErrorMessage]
        | raises e2 =>
          simp [retryGo, ha0, ha1, ha2, h1s, attemptErrorMessage]
      | raises e1 =>
        cases ha2 : attempts 2 with
        | result r2 =>
          rw [ha2] at h2
          simp only [attemptFails] at h2
          have h2s : r2.is_success = false := is_success_eq_false_of_is_failure r2 h2
          simp [retryGo, ha0, ha1, ha2, h2s, attemptErrorMessage]
        | raises e2 =>
          simp [retryGo, ha0, ha1, ha2, attemptErrorMessage]

/-- Witness for C5: an attempt sequence failing twice then succeeding, and
one failing three times. -/
theorem retry_spec_witness :
    add_invoice_item_with_retry
        (fun n =>
          if n = 0 then AttemptOutcome.result (Result.failure "e1" none)
          else if n = 1 then AttemptOutcome.raises ⟨"e2"⟩
          else AttemptOutcome.result (Result.success () (some "saved"))) 3 =
      (Result.success () (some "saved"), 3, [1, 2]) ∧
    add_invoice_item_with_retry
        (fun _ => AttemptOutcome.result (Result.failure "down" none)) 3 =
      (Result.failure "Failed after 3 attempts. Last error: down" none,
       3, [1, 2]) := by
  constructor
  · have h := (retry_spec
      (fun n =>
        if n = 0 then AttemptOutcome.result (Result.failure "e1" none)
        else if n = 1 then AttemptOutcome.raises ⟨"e2"⟩
        else AttemptOutcome.result (Result.success () (some "saved")))).1
      (Result.success () (some "saved")) rfl rfl rfl rfl
    exact h.1
  · have h := (retry_spec
      (fun _ => AttemptOutcome.result (Result.failure "down" none))).2
      rfl rfl rfl
    exact h

/-- Every element kept by the duplicate-removal loop comes from the input
and has a key outside the seen set. -/
lemma dedupeGo_mem (ls : List LessonData) :
    ∀ (seen : List (String × String)), ∀ l ∈ dedupeGo seen ls,
      l ∈ ls ∧ lessonKey l ∉ seen := by
  induction ls with
  | nil =>
    intro seen l hl
    simp [dedupeGo] at hl
  | cons a rest ih =>
    intro seen l hl
    by_cases h : lessonKey a ∈ seen
    · rw [dedupeGo, if_pos h] at hl
      obtain ⟨h1, h2⟩ := ih seen l hl
      exact ⟨List.mem_cons_of_mem a h1, h2⟩
    · rw [dedupeGo, if_neg h] at hl
      rcases List.mem_cons.mp hl with rfl | hl2
      · exact ⟨List.mem_cons_self _ _, h⟩
      · obtain ⟨h1, h2⟩ := ih (lessonKey a :: seen) l hl2
        exact ⟨List.mem_cons_of_mem a h1,
          fun hc => h2 (List.mem_cons_of_mem _ hc)⟩

/-- The duplicate-removal loop never lengthens the list. -/
lemma dedupeGo_length_le (ls : List LessonData) :
    ∀ seen : List (String × String),
      (dedupeGo seen ls).length ≤ ls.length := by
  induction ls with
  | nil =>
    intro seen
    simp [dedupeGo]
  | cons a rest ih =>
    intro seen
    by_cases h : lessonKey a ∈ seen
    · rw [dedupeGo, if_pos h]
      exact Nat.le_succ_of_le (ih seen)
    · rw [dedupeGo, if_neg h]
      simpa using ih (lessonKey a :: seen)

/-- The keys of the deduplicated list are pairwise distinct. -/
lemma dedupeGo_keys_nodup (ls : List LessonData) :
    ∀ seen : List (String × String),
      ((dedupeGo seen ls).map lessonKey).Nodup := by
  induction ls with
  | nil =>
    intro seen
    simp [dedupeGo]
  | cons a rest ih =>
    intro seen
    by_cases h : lessonKey a ∈ seen
    · rw [dedupeGo, if_pos h]
      exact ih seen
    · rw [dedupeGo, if_neg h]
      simp only [List.map_cons, List.nodup_cons]
      refine ⟨?_, ih (lessonKey a :: seen)⟩
      intro hc
      obtain ⟨x, hx, hkx⟩ := List.mem_map.mp hc
      exact (dedupeGo_mem rest (lessonKey a :: seen) x hx).2
        (hkx ▸ List.mem_cons_self _ _)

/-- Every key of the input with a key outside seen is represented in the
deduplicated list. -/
lemma dedupeGo_covers (ls : List LessonData) :
    ∀ seen : List (String × String), ∀ l ∈ ls, lessonKey l ∉ seen →
      ∃ x ∈ dedupeGo seen ls, lessonKey x = lessonKey l := by
  induction ls with
  | nil =>
    intro seen l hl
    simp at hl
  | cons a rest ih =>
    intro seen l hl hns
    by_cases h : lessonKey a ∈ seen
    · rw [dedupeGo, if_pos h]
      rcases List.mem_cons.mp hl with rfl | hl2
      · exact absurd h (by exact hns)
      · exact ih seen l hl2 hns
    · rw [dedupeGo, if_neg h]
      rcases List.mem_cons.mp hl with rfl | hl2
      · exact ⟨_, List.mem_cons_self _ _, rfl⟩
      · by_cases hk : lessonKey l = lessonKey a
        · exact ⟨a, List.mem_cons_self a _, hk.symm⟩
        · obtain ⟨x, hx, hkx⟩ := ih (lessonKey a :: seen) l hl2
            (by simp [hk, hns])
          exact ⟨x, List.mem_cons_of_mem a hx, hkx⟩

/-- Every element kept by the duplicate-removal loop is the first element
of the input bearing its key. -/
lemma dedupeGo_first (ls : List LessonData) :
    ∀ seen : List (String × String), ∀ x ∈ dedupeGo seen ls,
      ls.find? (fun y => lessonKey y == lessonKey x) = some x := by
  induction ls with
  | nil =>
    intro seen x hx
    simp [dedupeGo] at hx
  | cons a rest ih =>
    intro seen x hx
    by_cases h : lessonKey a ∈ seen
    · rw [dedupeGo, if_pos h] at hx
      have hkx : lessonKey x ∉ seen := (dedupeGo_mem rest seen x hx).2
      have hne : ¬ ((fun y => lessonKey y == lessonKey x) a = true) := by
        simp only [beq_iff_eq]
        intro hc
        exact hkx (hc ▸ h)
      rw [List.find?_cons_of_neg rest hne]
      exact ih seen x hx
    · rw [dedupeGo, if_neg h] at hx
      rcases List.mem_cons.mp hx with rfl | hx2
      · exact List.find?_cons_of_pos rest (by simp)
      · have hkx : lessonKey x ∉ lessonKey a :: seen :=
          (dedupeGo_mem rest (lessonKey a :: seen) x hx2).2
        have hne : ¬ ((fun y => lessonKey y == lessonKey x) a = true) := by
          simp only [beq_iff_eq]
          intro hc
          exact hkx (hc ▸ List.mem_cons_self _ _)
        rw [List.find?_cons_of_neg rest hne]
        exact ih (lessonKey a :: seen) x hx2

/-- C6: every lesson returned by the pipeline has a date in the requested
month (its date starts with the "{year}-{month:02d}" filter string); the
(date, student_name) keys of the returned list are pairwise distinct,
every record surviving the month filter is represented, and each
returned lesson is the first occurrence of its key; the marked edit
controls and hence the returned lessons are capped at 100. -/
theorem get_lessons_spec (buttons : List PageButton)
    (extract : String → Option LessonData) (year month : Nat) :
    (∀ l ∈ get_lessons_for_month buttons extract year month,
      strStartsWith l.date (targetMonthStr year month) = true) ∧
    ((get_lessons_for_month buttons extract year month).map lessonKey).Nodup ∧
    (∀ l ∈ lessonsBeforeDedupe buttons extract year month,
      ∃ x ∈ get_lessons_for_month buttons extract year month,
        lessonKey x = lessonKey l) ∧
    (∀ x ∈ get_lessons_for_month buttons extract year month,
      (lessonsBeforeDedupe buttons extract year month).find?
        (fun y => lessonKey y == lessonKey x) = some x) ∧
    (markEditButtons buttons).length ≤ MAX_EDIT_BUTTONS ∧
    (get_lessons_for_month buttons extract year month).length ≤
      MAX_EDIT_BUTTONS := by
  refine ⟨?_, ?_, ?_, ?_, ?_, ?_⟩
  · intro l hl
    have hmem : l ∈ lessonsBeforeDedupe buttons extract year month :=
      (dedupeGo_mem _ [] l hl).1
    exact (List.mem_filter.mp hmem).2
  · exact dedupeGo_keys_nodup _ []
  · intro l hl
    exact dedupeGo_covers _ [] l hl (by simp)
  · intro x hx
    exact dedupeGo_first _ [] x hx
  · exact List.length_take_le _ _
  · calc (get_lessons_for_month buttons extract year month).length
        ≤ (lessonsBeforeDedupe buttons extract year month).length :=
          dedupeGo_length_le _ []
      _ ≤ (((markEditButtons buttons).map (fun b => b.card_text)).filterMap
            (fun c =>
              match extract c with
              | none => none
              | some l =>
                if (LessonValidator.validate l.toDict).is_valid then some l
                else none)).length := List.length_filter_le _ _
      _ ≤ ((markEditButtons buttons).map (fun b => b.card_text)).length :=
          List.length_filterMap_le _ _
      _ = (markEditButtons buttons).length := List.length_map _ _
      _ ≤ MAX_EDIT_BUTTONS := List.length_take_le _ _

/-- Witness for C6: two valid edit cards in the month, one duplicate key,
one out-of-month card, and one non-edit button. -/
theorem get_lessons_spec_witness :
    get_lessons_for_month
        [⟨"編集", "c1"⟩, ⟨"編集", "c2"⟩, ⟨"編集", "c3"⟩, ⟨"受講履歴編集", "c1"⟩]
        (fun c =>
          if c = "c1" then
            some ⟨"l1", "2025-10-15", "s1", "Alice", "completed", 60, "cat"⟩
          else if c = "c2" then
            some ⟨"l2", "2025-10-15", "s2", "Alice", "completed", 45, "cat"⟩
          else
            some ⟨"l3", "2025-09-01", "s3", "Bob", "completed", 60, "cat"⟩)
        2025 10 =
      [⟨"l1", "2025-10-15", "s1", "Alice", "completed", 60, "cat"⟩] ∧
    (get_lessons_for_month
        [⟨"編集", "c1"⟩, ⟨"編集", "c2"⟩, ⟨"編集", "c3"⟩, ⟨"受講履歴編集", "c1"⟩]
        (fun c =>
          if c = "c1" then
            some ⟨"l1", "2025-10-15", "s1", "Alice", "completed", 60, "cat"⟩
          else if c = "c2" then
            some ⟨"l2", "2025-10-15", "s2", "Alice", "completed", 45, "cat"⟩
          else
            some ⟨"l3", "2025-09-01", "s3", "Bob", "completed", 60, "cat"⟩)
        2025 10).length ≤ MAX_EDIT_BUTTONS := by
  constructor
  · decide
  · exact (get_lessons_spec
      [⟨"編集", "c1"⟩, ⟨"編集", "c2"⟩, ⟨"編集", "c3"⟩, ⟨"受講履歴編集", "c1"⟩]
      (fun c =>
        if c = "c1" then
          some ⟨"l1", "2025-10-15", "s1", "Alice", "completed", 60, "cat"⟩
        else if c = "c2" then
          some ⟨"l2", "2025-10-15", "s2", "Alice", "completed", 45, "cat"⟩
        else
          some ⟨"l3", "2025-09-01", "s3", "Bob", "completed", 60, "cat"⟩)
      2025 10).2.2.2.2.2

/-- After add_error, validity is off and the error list nonempty, so the
validity-tracks-errors invariant holds outright. -/
lemma inv_add_error (r : ValidationResult) (m : String) :
    ((r.add_error m).is_valid = true ↔ (r.add_error m).errors = []) := by
  simp [ValidationResult.add_error]

/-- add_warning preserves the validity-tracks-errors invariant. -/
lemma inv_add_warning (r : ValidationResult) (m : String)
    (h : r.is_valid = true ↔ r.errors = []) :
    ((r.add_warning m).is_valid = true ↔ (r.add_warning m).errors = []) := by
  simpa [ValidationResult.add_warning] using h

/-- applyCheck preserves the validity-tracks-errors invariant. -/
lemma inv_applyCheck (r : ValidationResult) (e : Option String)
    (h : r.is_valid = true ↔ r.errors = []) :
    ((applyCheck r e).is_valid = true ↔ (applyCheck r e).errors = []) := by
  cases e with
  | none => exact h
  | some m => exact inv_add_error r m

/-- statusCheck preserves the validity-tracks-errors invariant. -/
lemma inv_statusCheck (r : ValidationResult) (status : String)
    (h : r.is_valid = true ↔ r.errors = []) :
    ((statusCheck r status).is_valid = true ↔
      (statusCheck r status).errors = []) := by
  unfold statusCheck
  split
  · exact h
  · exact inv_add_error r _

/-- durationCheck preserves the validity-tracks-errors invariant. -/
lemma inv_durationCheck (r : ValidationResult) (dur : Int)
    (h : r.is_valid = true ↔ r.errors = []) :
    ((durationCheck r dur).is_valid = true ↔
      (durationCheck r dur).errors = []) := by
  unfold durationCheck
  split
  · exact inv_add_error r _
  · split
    · exact inv_add_error r _
    · split
      · exact inv_add_warning r _ h
      · exact h

/-- Folding add_error over any error list preserves the
validity-tracks-errors invariant. -/
lemma inv_foldl_add_error (l : List String) :
    ∀ r : ValidationResult, (r.is_valid = true ↔ r.errors = []) →
      ((l.foldl ValidationResult.add_error r).is_valid = true ↔
        (l.foldl ValidationResult.add_error r).errors = []) := by
  induction l with
  | nil =>
    intro r h
    exact h
  | cons m rest ih =>
    intro r _
    exact ih (r.add_error m) (inv_add_error r m)

/-- Every result produced by LessonValidator.validate satisfies the
validity-tracks-errors invariant. -/
lemma inv_validate (d : LessonDict) :
    ((LessonValidator.validate d).is_valid = true ↔
      (LessonValidator.validate d).errors = []) := by
  unfold LessonValidator.validate
  have h0 : ((⟨true, [], []⟩ : ValidationResult).is_valid = true ↔
      (⟨true, [], []⟩ : ValidationResult).errors = []) := by simp
  have h1 := inv_foldl_add_error (validate_required_errors d) _ h0
  split
  · dsimp only
    split
    · exact h1
    · exact inv_applyCheck _ _ (inv_durationCheck _ _ (inv_statusCheck _ _
        (inv_applyCheck _ _ (inv_applyCheck _ _ (inv_applyCheck _ _
          (inv_applyCheck _ _ h1))))))
  · dsimp only
    split
    · exact h1
    · exact h1

/-- C8: add_warning never changes validity (and leaves errors alone),
add_error always forces validity off, and therefore every result of
LessonValidator.validate is valid exactly when its error list is empty;
in particular a lesson whose duration exceeds MAX_DURATION gets a
warning but stays valid. -/
theorem validation_spec :
    (∀ (r : ValidationResult) (m : String),
      (r.add_warning m).is_valid = r.is_valid ∧
      (r.add_warning m).errors = r.errors) ∧
    (∀ (r : ValidationResult) (m : String),
      (r.add_error m).is_valid = false) ∧
    (∀ d : LessonDict,
      ((LessonValidator.validate d).is_valid = true ↔
        (LessonValidator.validate d).errors = [])) ∧
    ((LessonValidator.validate
        ⟨some "l1", some "2025-10-15", some "s1", some "Alice",
          some "completed", some 200, some "cat"⟩).is_valid = true ∧
      (LessonValidator.validate
        ⟨some "l1", some "2025-10-15", some "s1", some "Alice",
          some "completed", some 200, some "cat"⟩).warnings ≠ []) := by
  refine ⟨?_, ?_, inv_validate, by decide⟩
  · intro r m
    exact ⟨rfl, rfl⟩
  · intro r m
    rfl

end SelAuto
